import Mathlib

/-!
Shallow embedding of the Handlebars live-preview extension
(src/src/extension.ts) for verifying the frozen claims.

Modelling conventions:
* JavaScript values are modelled by `JSVal` (integers stand in for JS
  numbers, which suffices for the claims; `engine` is the reference to the
  shared handlebars module object; `func` is an opaque reference to a
  callable).
* The filesystem is modelled by `FSTree`, a tree rooted at the filesystem
  root "/". `readdirSync` order is the stored entry order.
* Paths are strings joined with "/"; `path.join a b` is modelled as
  `a ++ "/" ++ b` and path lookup splits on "/" discarding empty
  components.
* JS `String.prototype.replace` with a string pattern replaces the FIRST
  occurrence only; `replaceFirst` models that (the Lean `String.replace`
  replaces all occurrences, so it is not used).
* The handlebars compile-and-invoke step is a black box, passed in as a
  function `Engine`.
* Property access on `undefined`/`null` throws a TypeError; property
  writes on primitives are modelled as strict-mode failures (TypeScript
  emits strict-mode code). These error strings abbreviate the real
  engine messages. Property storage on function values is not modelled,
  as no claim needs it.
-/

mutual

inductive JSVal where
  | undef
  | null
  | boolean (b : Bool)
  | number (n : Int)
  | string (s : String)
  | engine
  | func (id : Nat)
  | object (fields : JSFields)
deriving DecidableEq

inductive JSFields where
  | nil
  | cons (name : String) (v : JSVal) (rest : JSFields)
deriving DecidableEq

end

/-- JS truthiness: undefined, null, false, 0 and "" are falsy, everything
else (all objects and functions included) is truthy. -/
def jsTruthy : JSVal → Bool
  | .undef => false
  | .null => false
  | .boolean b => b
  | .number n => n != 0
  | .string s => s != ""
  | .engine => true
  | .func _ => true
  | .object _ => true

/-- JS `a || b`. -/
def jsOr (a b : JSVal) : JSVal := if jsTruthy a then a else b

/-- The empty object literal. -/
def emptyObj : JSVal := JSVal.object JSFields.nil

/-- First-match property lookup in the field list of an object. -/
def JSFields.lookupField : JSFields → String → Option JSVal
  | .nil, _ => none
  | .cons k v rest, key => if k = key then some v else rest.lookupField key

/-- JS property assignment on an object: update the key in place if
present, otherwise append it. -/
def JSFields.setField : JSFields → String → JSVal → JSFields
  | .nil, key, v => .cons key v .nil
  | .cons k v0 rest, key, v =>
      if k = key then .cons k v rest else .cons k v0 (rest.setField key v)

mutual

inductive FSTree where
  | file (content : String)
  | dir (entries : FSEntries)

inductive FSEntries where
  | nil
  | cons (name : String) (t : FSTree) (rest : FSEntries)

end

/-- Whether the second character list is a leading segment of the first
(structurally recursive so that concrete instances reduce in the kernel;
the library string primitives use well-founded recursion and do not). -/
def charsBeginWith : List Char → List Char → Bool
  | _, [] => true
  | [], _ :: _ => false
  | c :: cs, p :: ps => c = p && charsBeginWith cs ps

/-- Whether `pat` occurs as a contiguous segment of the character list. -/
def containsSub (pat : List Char) : List Char → Bool
  | [] => charsBeginWith [] pat
  | c :: rest => charsBeginWith (c :: rest) pat || containsSub pat rest

/-- Replace the first occurrence of `pat` by `repl` (the behaviour of JS
`String.prototype.replace` with a string pattern); no occurrence leaves
the list unchanged. -/
def replaceFirstChars (pat repl : List Char) : List Char → List Char
  | [] => if charsBeginWith [] pat then repl else []
  | c :: rest =>
      if charsBeginWith (c :: rest) pat then
        repl ++ (c :: rest).drop pat.length
      else c :: replaceFirstChars pat repl rest

/-- Split a character list on a separator character. -/
def splitOnChar (sep : Char) : List Char → List (List Char)
  | [] => [[]]
  | c :: rest =>
      let r := splitOnChar sep rest
      if c = sep then [] :: r
      else
        match r with
        | [] => [[c]]
        | h :: t => (c :: h) :: t

/-- Model of JS `s.startsWith(pat)`. -/
def strStartsWith (s pat : String) : Bool :=
  charsBeginWith s.data pat.data

/-- Model of JS `s.endsWith(pat)`. -/
def strEndsWith (s pat : String) : Bool :=
  charsBeginWith s.data.reverse pat.data.reverse

/-- Model of JS `Array.prototype.join(sep)`. -/
def joinWith (sep : String) : List String → String
  | [] => ""
  | [x] => x
  | x :: y :: rest => x ++ sep ++ joinWith sep (y :: rest)

/-- Split a path on "/" and drop empty components. -/
def pathComponents (p : String) : List String :=
  ((splitOnChar '/' p.data).map (fun l => String.mk l)).filter
    (fun c => c ≠ "")

mutual

/-- Resolve a component list inside the tree. -/
def FSTree.find : FSTree → List String → Option FSTree
  | t, [] => some t
  | .file _, _ :: _ => none
  | .dir es, c :: cs => FSEntries.findIn es c cs

def FSEntries.findIn : FSEntries → String → List String → Option FSTree
  | .nil, _, _ => none
  | .cons n t rest, c, cs =>
      if n = c then t.find cs else FSEntries.findIn rest c cs

end

/-- Model of `existsSync`. -/
def existsSyncFS (root : FSTree) (p : String) : Bool :=
  (root.find (pathComponents p)).isSome

/-- Model of `readFileSync` (utf8): succeeds on a file, throws otherwise.
The error text abbreviates the node ENOENT message. -/
def readFileFS (root : FSTree) (p : String) : Except String String :=
  match root.find (pathComponents p) with
  | some (.file content) => .ok content
  | _ => .error ("ENOENT: " ++ p)

/-- JS `s.replace(pat, repl)` with a string pattern: replace the first
occurrence only. -/
def replaceFirst (s pat repl : String) : String :=
  String.mk (replaceFirstChars pat.data repl.data s.data)

/-- JS `s.includes(pat)`. -/
def containsSubstr (s pat : String) : Bool :=
  containsSub pat.data s.data

/-- Raw persisted settings, as returned by `config.get` (none when unset).
An empty array setting is a present (truthy) value in JS, so the `||`
defaulting in `getConfiguration` only fires on an absent setting. -/
structure Settings where
  templateDirectories : Option (List String)
  partialsDirectories : Option (List String)
  customHelpersFile : Option String

/-- The resolved configuration produced by `getConfiguration`. -/
structure Configuration where
  templateDirectories : List String
  partialsDirectories : List String
  customHelpersFile : String

/-- Model of `getConfiguration`: apply the documented defaults. -/
def getConfiguration (s : Settings) : Configuration :=
  { templateDirectories :=
      s.templateDirectories.getD ["templates", "src/templates", "views"]
    partialsDirectories := s.partialsDirectories.getD []
    customHelpersFile := s.customHelpersFile.getD "" }

/-- Resolve a configured directory: keep absolute paths, otherwise join to
the workspace root. -/
def resolveDir (ws dir : String) : String :=
  if strStartsWith dir "/" then dir else ws ++ "/" ++ dir

/-- Model of `getTemplateDirectories`: resolve each configured template
directory and keep only the ones that exist. -/
def getTemplateDirectories (root : FSTree) (ws : String) (s : Settings) :
    List String :=
  ((getConfiguration s).templateDirectories.map (resolveDir ws)).filter
    (fun d => existsSyncFS root d)

/-- Model of `getPartialsDirectories`: the configured partials directories,
falling back to the template directories when that list is empty; resolve
and keep the existing ones. -/
def getPartialsDirectories (root : FSTree) (ws : String) (s : Settings) :
    List String :=
  let cfg := getConfiguration s
  let dirs :=
    if cfg.partialsDirectories.length > 0 then cfg.partialsDirectories
    else cfg.templateDirectories
  (dirs.map (resolveDir ws)).filter (fun d => existsSyncFS root d)

/-- Shared partial table of the engine. `handlebars.registerPartial`
overwrites any earlier registration of the same name, modelled by consing
and first-match lookup. -/
abbrev PartialTable := List (String × String)

/-- Model of `handlebars.registerPartial name content`. -/
def PartialTable.register (t : PartialTable) (name content : String) :
    PartialTable :=
  (name, content) :: t

/-- Retrieval from the partial table (latest registration wins). -/
def PartialTable.lookupKey : PartialTable → String → Option String
  | [], _ => none
  | (k, v) :: rest, name =>
      if k = name then some v else PartialTable.lookupKey rest name

mutual

/-- Model of `registerPartialsRecursively dir` walking the subtree `t`
found on disk at path `dirPath`. A `readdirSync` failure (the path is not
a directory) is caught and logged, registering nothing. -/
def registerPartialsRecursively (ws dirPath : String) (t : FSTree)
    (tbl : PartialTable) : PartialTable :=
  match t with
  | .file _ => tbl
  | .dir es => registerPartialsEntries ws dirPath es tbl

/-- One `forEach` pass of `registerPartialsRecursively` over the directory
entries, in `readdirSync` order. -/
def registerPartialsEntries (ws dirPath : String) (es : FSEntries)
    (tbl : PartialTable) : PartialTable :=
  match es with
  | .nil => tbl
  | .cons file sub rest =>
      let filePath := dirPath ++ "/" ++ file
      let tbl2 :=
        match sub with
        | .dir _ => registerPartialsRecursively ws filePath sub tbl
        | .file content =>
            if strEndsWith file ".hbs" then
              let relativePath := replaceFirst filePath (ws ++ "/") ""
              let partialName := replaceFirst relativePath ".hbs" ""
              let tbl1 := tbl.register partialName content
              let fileName := replaceFirst file ".hbs" ""
              if fileName ≠ partialName then tbl1.register fileName content
              else tbl1
            else tbl
      registerPartialsEntries ws dirPath rest tbl2

end

/-- Model of `registerPartials`: walk every partials directory in order.
Directories were filtered by `existsSync`, so the tree lookup succeeds;
a missing subtree registers nothing (defensive total case). -/
def registerPartials (root : FSTree) (ws : String) (s : Settings)
    (tbl : PartialTable) : PartialTable :=
  (getPartialsDirectories root ws s).foldl
    (fun acc dir =>
      match root.find (pathComponents dir) with
      | some t => registerPartialsRecursively ws dir t acc
      | none => acc)
    tbl

/-- A scanned template record. -/
structure TemplateRecord where
  name : String
  directory : String
  fullPath : String
deriving DecidableEq

mutual

/-- Model of `getTemplatesRecursively dir templates baseDir` walking the
subtree `t` found on disk at `dirPath`; the records it would push are
returned in order. A `readdirSync` failure yields no records. -/
def getTemplatesRecursively (ws baseDir dirPath : String) (t : FSTree) :
    List TemplateRecord :=
  match t with
  | .file _ => []
  | .dir es => getTemplatesEntries ws baseDir dirPath es

/-- One `forEach` pass of `getTemplatesRecursively` over the directory
entries, in `readdirSync` order. -/
def getTemplatesEntries (ws baseDir dirPath : String) (es : FSEntries) :
    List TemplateRecord :=
  match es with
  | .nil => []
  | .cons file sub rest =>
      let filePath := dirPath ++ "/" ++ file
      (match sub with
       | .dir _ => getTemplatesRecursively ws baseDir filePath sub
       | .file _ =>
          if strEndsWith file ".hbs" then
            [{ name :=
                 replaceFirst (replaceFirst filePath (baseDir ++ "/") "")
                   ".hbs" ""
               directory := replaceFirst baseDir (ws ++ "/") ""
               fullPath := filePath }]
          else []) ++ getTemplatesEntries ws baseDir dirPath rest

end

/-- Scan a given list of (already resolved, existing) template directories
and apply the components post-filter; factored out of
`getAvailableTemplates` so that theorems can speak about the directory
list it receives. -/
def templatesForDirs (root : FSTree) (ws : String) (dirs : List String) :
    List TemplateRecord :=
  ((dirs.map (fun dir =>
      match root.find (pathComponents dir) with
      | some t => getTemplatesRecursively ws dir dir t
      | none => [])).flatten).filter
    (fun t => !containsSubstr t.name "components/")

/-- Model of `getAvailableTemplates`. -/
def getAvailableTemplates (root : FSTree) (ws : String) (s : Settings) :
    List TemplateRecord :=
  templatesForDirs root ws (getTemplateDirectories root ws s)

/-- The template data cache (`Map<string, any>`), modelled extensionally:
`set` replaces the key, `delete` removes it, `get` is first-match lookup
(keys stay unique by construction). -/
abbrev DataCache := List (String × JSVal)

/-- Model of `getTemplateDataKey`. -/
def getTemplateDataKey (ws templateName : String) : String :=
  ws ++ ":" ++ templateName

/-- First-match read of a key (the model of `Map.get`, none = undefined). -/
def DataCache.getKey : DataCache → String → Option JSVal
  | [], _ => none
  | (k, v) :: rest, key =>
      if k = key then some v else DataCache.getKey rest key

/-- Remove every binding of a key (the model of `Map.delete`). -/
def DataCache.eraseKey (c : DataCache) (key : String) : DataCache :=
  c.filter (fun e => e.1 ≠ key)

/-- Model of `saveTemplateData` (`Map.set`, overwriting). -/
def saveTemplateData (c : DataCache) (ws templateName : String)
    (data : JSVal) : DataCache :=
  (getTemplateDataKey ws templateName, data)
    :: c.eraseKey (getTemplateDataKey ws templateName)

/-- Model of `getTemplateData`: `cache.get(key) || ` the empty object
(`Map.get` yields undefined when the key is absent). -/
def getTemplateData (c : DataCache) (ws templateName : String) : JSVal :=
  jsOr ((c.getKey (getTemplateDataKey ws templateName)).getD JSVal.undef)
    emptyObj

/-- Model of `clearTemplateData` (`Map.delete`). -/
def clearTemplateData (c : DataCache) (ws templateName : String) :
    DataCache :=
  c.eraseKey (getTemplateDataKey ws templateName)

/-- The black-box handlebars compile-and-invoke step: template source and
data in, markup out, or a thrown compile/runtime error message. -/
abbrev Engine := String → JSVal → Except String String

/-- Model of `renderTemplate`: locate the record by name (first match),
throw `Template not found` otherwise; then force partial re-registration,
read the template source fresh and run the engine. The returned table is
the partial table after the call (mutated even when the engine throws). -/
def renderTemplate (root : FSTree) (ws : String) (s : Settings)
    (engine : Engine) (tbl : PartialTable) (templateName : String)
    (data : JSVal) : Except String String × PartialTable :=
  let templates := getAvailableTemplates root ws s
  match templates.find? (fun t => t.name = templateName) with
  | none => (.error ("Template not found: " ++ templateName), tbl)
  | some t =>
      let tbl2 := registerPartials root ws s tbl
      match readFileFS root t.fullPath with
      | .error e => (.error e, tbl2)
      | .ok content => (engine content data, tbl2)

/-- Messages posted to the webview (the ones the claims mention). -/
inductive Msg where
  | templatesList (ts : List TemplateRecord)
  | rendered (html : String)
  | errorMsg (message : String)
  | templateData (data : JSVal)
  | templateDataCleared
deriving DecidableEq

/-- Observable events of one message-handler run, in execution order:
cache writes and webview posts. -/
inductive Event where
  | save (key : String) (v : JSVal)
  | post (m : Msg)
deriving DecidableEq

/-- Result of handling one webview message. -/
structure Handled where
  tbl : PartialTable
  cache : DataCache
  events : List Event
deriving DecidableEq

/-- Model of the `renderTemplate` arm of `onDidReceiveMessage`:
try `renderTemplate(name, message.data || em)`, on success save
`message.data || em` (where em is the empty object) and post the markup;
on any thrown error post the error message. -/
def handleRenderTemplate (root : FSTree) (ws : String) (s : Settings)
    (engine : Engine) (tbl : PartialTable) (cache : DataCache)
    (templateName : String) (msgData : JSVal) : Handled :=
  match renderTemplate root ws s engine tbl templateName
      (jsOr msgData emptyObj) with
  | (.ok html, tbl2) =>
      { tbl := tbl2
        cache := saveTemplateData cache ws templateName
          (jsOr msgData emptyObj)
        events :=
          [Event.save (getTemplateDataKey ws templateName)
             (jsOr msgData emptyObj),
           Event.post (Msg.rendered html)] }
  | (.error e, tbl2) =>
      { tbl := tbl2
        cache := cache
        events := [Event.post (Msg.errorMsg e)] }

/-- Effects a watcher callback can trigger. -/
inductive WatchEffect where
  | regPartials
  | refreshList
  | rerender
deriving DecidableEq

/-- One installed `FileSystemWatcher`, with the effect sequence of each
callback. -/
structure Watcher where
  dir : String
  onChange : List WatchEffect
  onCreate : List WatchEffect
  onDelete : List WatchEffect
deriving DecidableEq

/-- Watcher installed for a template directory: change re-registers
partials, refreshes the list and re-renders; create and delete
re-register partials and refresh the list only. -/
def templateDirWatcher (d : String) : Watcher :=
  { dir := d
    onChange := [.regPartials, .refreshList, .rerender]
    onCreate := [.regPartials, .refreshList]
    onDelete := [.regPartials, .refreshList] }

/-- Watcher installed for a partials-only directory: every callback only
re-registers partials. -/
def partialsDirWatcher (d : String) : Watcher :=
  { dir := d
    onChange := [.regPartials]
    onCreate := [.regPartials]
    onDelete := [.regPartials] }

/-- Model of `setupFileWatchers`: one watcher per template directory, then
one per partials directory not already watched as a template directory. -/
def setupFileWatchers (root : FSTree) (ws : String) (s : Settings) :
    List Watcher :=
  let templateDirs := getTemplateDirectories root ws s
  let partialsDirs := getPartialsDirectories root ws s
  templateDirs.map templateDirWatcher
    ++ (partialsDirs.filter (fun d => !templateDirs.contains d)).map
        partialsDirWatcher

/-- Property read. Reading from undefined or null throws a TypeError;
reading from a primitive yields undefined (boxing); reading from an
object is field lookup defaulting to undefined. Reads from the opaque
`engine` and `func` references yield undefined (their properties are not
modelled; no claim depends on them). -/
def jsGetField : JSVal → String → Except String JSVal
  | .undef, key => .error ("TypeError: cannot read " ++ key
      ++ " of undefined")
  | .null, key => .error ("TypeError: cannot read " ++ key ++ " of null")
  | .object fs, key => .ok ((fs.lookupField key).getD JSVal.undef)
  | _, _ => .ok JSVal.undef

/-- Property write (strict mode, as TypeScript emits): writing to an
object updates it, writing to anything else throws a TypeError. -/
def jsSetField : JSVal → String → JSVal → Except String JSVal
  | .object fs, key, v => .ok (.object (fs.setField key v))
  | _, key, _ => .error ("TypeError: cannot set " ++ key)

/-- The invocation the adapter makes of the original helper:
the `this` binding and the argument array (after mutation). -/
structure HelperCall where
  thisArg : JSVal
  args : List JSVal
deriving DecidableEq

/-- Model of the adapter closure registered by `loadCustomHelpers` for
each callable entry: take the final argument (`args.at(-1)`, undefined on
an empty array), default its falsy `data` property to an empty object,
attach the engine under `data.hbs`, then call the original helper with
the same `this` and the (mutated) argument array. The result is the call
made to the original helper, or the thrown TypeError. -/
def adapterInvoke (thisV : JSVal) (args : List JSVal) :
    Except String HelperCall := do
  let options := (args.getLast?).getD JSVal.undef
  let d ← jsGetField options "data"
  let options2 ←
    if jsTruthy d then pure options
    else jsSetField options "data" emptyObj
  let d2 ← jsGetField options2 "data"
  let d3 ← jsSetField d2 "hbs" JSVal.engine
  let options3 ← jsSetField options2 "data" d3
  pure { thisArg := thisV, args := args.dropLast ++ [options3] }

/-- JS `typeof v === "object"` (true for null as well). The opaque
`engine` reference is an object. -/
def typeofIsObject : JSVal → Bool
  | .object _ => true
  | .null => true
  | .engine => true
  | _ => false

/-- Names of the callable entries of an object, in field order (the
entries `loadCustomHelpers` registers adapters for). -/
def helperNames : JSFields → List String
  | .nil => []
  | .cons k v rest =>
      (match v with | .func _ => [k] | _ => []) ++ helperNames rest

/-- The field list `Object.entries` would iterate (empty for non-objects;
the own properties of the opaque engine reference are not modelled). -/
def jsEntries : JSVal → JSFields
  | .object fs => fs
  | _ => .nil

/-- Observable outcome of one `loadCustomHelpers` run. -/
structure LoadOutcome where
  registered : List String
  userInfo : List String
  userWarn : List String
  userError : List String
  logs : List String
deriving DecidableEq

/-- Dynamic import of the helpers module, passed in as a black box: the
module namespace value, or the thrown load/parse error message. -/
abbrev ImportFn := String → Except String JSVal

/-- Resolved path of the configured custom-helpers file. -/
def helpersPathOf (ws : String) (cfg : Configuration) : String :=
  if strStartsWith cfg.customHelpersFile "/" then cfg.customHelpersFile
  else ws ++ "/" ++ cfg.customHelpersFile

/-- Body of `loadCustomHelpers` inside its try block (the no-file check
precedes the try block in the source and lives in `loadCustomHelpers`
below). Thrown errors propagate to the caller. -/
def loadCustomHelpersBody (root : FSTree) (ws : String)
    (cfg : Configuration) (importFn : ImportFn) :
    Except String LoadOutcome := do
  let helpersPath := helpersPathOf ws cfg
  if existsSyncFS root helpersPath = false then
    return { registered := [], userInfo := [], userWarn := [],
             userError := [],
             logs := ["Custom helpers file not found: " ++ helpersPath] }
  let moduleVal ← importFn helpersPath
  let dflt ← jsGetField moduleVal "default"
  let helpers := jsOr dflt moduleVal
  if typeofIsObject helpers ∧ helpers ≠ JSVal.null then
    let names := helperNames (jsEntries helpers)
    if names.length > 0 then
      return { registered := names
               userInfo := ["Handlebars Live Preview: Registered "
                 ++ toString names.length ++ " custom helpers: "
                 ++ joinWith ", " names]
               userWarn := [], userError := []
               logs := names.map
                 (fun n => "Registered custom helper: " ++ n) }
    else
      return { registered := names, userInfo := []
               userWarn := ["Handlebars Live Preview: No valid helper "
                 ++ "functions found in custom helpers file"]
               userError := [], logs := [] }
  else
    return { registered := [], userInfo := [], userWarn := []
             userError := ["Handlebars Live Preview: Custom helpers file "
               ++ "should export an object with helper functions"]
             logs := ["Custom helpers file should export an object with "
               ++ "helper functions: " ++ helpersPath] }

/-- Model of `loadCustomHelpers`: skip when no file is configured,
otherwise run the body and catch any thrown error, surfacing it as a
user-visible error message plus a log entry. -/
def loadCustomHelpers (root : FSTree) (ws : String) (s : Settings)
    (importFn : ImportFn) : LoadOutcome :=
  let cfg := getConfiguration s
  if cfg.customHelpersFile = "" then
    { registered := [], userInfo := [], userWarn := [], userError := []
      logs := ["No custom helpers file configured"] }
  else
    match loadCustomHelpersBody root ws cfg importFn with
    | .ok o => o
    | .error e =>
        { registered := [], userInfo := [], userWarn := []
          userError := ["Handlebars Live Preview: Failed to load custom "
            ++ "helpers: " ++ e]
          logs := ["Error loading custom helpers: " ++ e] }

deriving instance DecidableEq for Except

/-- Refinement-side description (following the amended claim C1) of the
two aliases one partial file receives: the absolute path with the first
occurrence of the workspace prefix deleted and the first ".hbs" deleted,
then the bare filename with ".hbs" deleted when that differs. -/
def partialAliasSpec (ws filePath file content : String) :
    List (String × String) :=
  let pathKey := replaceFirst (replaceFirst filePath (ws ++ "/") "")
    ".hbs" ""
  let bareKey := replaceFirst file ".hbs" ""
  if bareKey ≠ pathKey then [(pathKey, content), (bareKey, content)]
  else [(pathKey, content)]

mutual

/-- Refinement-side description of every registration the walk performs,
in traversal order: the aliases of each ".hbs" file found by recursive
descent. -/
def plannedPartialRegs (ws dirPath : String) : FSTree →
    List (String × String)
  | .file _ => []
  | .dir es => plannedPartialRegsEntries ws dirPath es

/-- Entry-list companion of `plannedPartialRegs`. -/
def plannedPartialRegsEntries (ws dirPath : String) : FSEntries →
    List (String × String)
  | .nil => []
  | .cons file sub rest =>
      let filePath := dirPath ++ "/" ++ file
      (match sub with
       | .dir _ => plannedPartialRegs ws filePath sub
       | .file content =>
          if strEndsWith file ".hbs" then
            partialAliasSpec ws filePath file content
          else []) ++ plannedPartialRegsEntries ws dirPath rest

end

/-- Folding one registration step. -/
def regStep (a : PartialTable) (kc : String × String) : PartialTable :=
  a.register kc.1 kc.2

/-- Condition under which the options mutation of the adapter succeeds:
the `data` property of the final argument is absent, falsy, or an object. -/
def dataSettable (fs : JSFields) : Bool :=
  match fs.lookupField "data" with
  | none => true
  | some (JSVal.object _) => true
  | some d => !jsTruthy d

/-- The options object after the adapter mutation, mirroring its
computation: default a falsy `data` to an empty object, then attach the
engine under `data.hbs`. -/
def injectedOptions (fs : JSFields) : JSFields :=
  let d := (fs.lookupField "data").getD JSVal.undef
  let fs2 := if jsTruthy d then fs else fs.setField "data" emptyObj
  match (fs2.lookupField "data").getD JSVal.undef with
  | JSVal.object dfs =>
      fs2.setField "data" (JSVal.object (dfs.setField "hbs" JSVal.engine))
  | _ => fs2

/-- Whether a value is an object carrying the engine back-reference at
`data.hbs`. -/
def engineInjected : JSVal → Bool
  | .object fs =>
      match fs.lookupField "data" with
      | some (.object dfs) =>
          match dfs.lookupField "hbs" with
          | some .engine => true
          | _ => false
      | _ => false
  | _ => false

/-- Fixture: workspace `/ws` with partials root `/ws/p` holding
`a/b/c.hbs`. -/
def cRoot1 : FSTree :=
  .dir (.cons "ws" (.dir (.cons "p" (.dir (.cons "a" (.dir (.cons "b"
    (.dir (.cons "c.hbs" (.file "X") .nil)) .nil)) .nil)) .nil)) .nil)

/-- Fixture settings: partials directory `p`. -/
def cSet1 : Settings := ⟨none, some ["p"], none⟩

/-- Fixture: workspace `/ws` with template root `/ws/t` holding
`x.hbs`. -/
def root2 : FSTree :=
  .dir (.cons "ws" (.dir (.cons "t" (.dir (.cons "x.hbs" (.file "HELLO")
    .nil)) .nil)) .nil)

/-- Fixture settings: template directory `t`. -/
def set2 : Settings := ⟨some ["t"], none, none⟩

/-- Fixture engine: compilation succeeds and renders the template source
itself. -/
def engine0 : Engine := fun content _ => .ok content

/-- Fixture: a template under a `components` subdirectory. -/
def root4 : FSTree :=
  .dir (.cons "ws" (.dir (.cons "templates" (.dir (.cons "components"
    (.dir (.cons "x.hbs" (.file "X") .nil)) .nil)) .nil)) .nil)

/-- Fixture settings: template directory `templates`. -/
def set4 : Settings := ⟨some ["templates"], none, none⟩

/-- Fixture: workspace with distinct template directory `t` and partials
directory `p`. -/
def root7 : FSTree :=
  .dir (.cons "ws" (.dir (.cons "t" (.dir .nil)
    (.cons "p" (.dir .nil) .nil))) .nil)

/-- Fixture settings: template directory `t`, partials directory `p`. -/
def set7 : Settings := ⟨some ["t"], some ["p"], none⟩

/-- Fixture: workspace holding a helpers module file. -/
def root3 : FSTree :=
  .dir (.cons "ws" (.dir (.cons "helpers.js" (.file "JS") .nil)) .nil)

/-- Fixture settings: custom helpers file `helpers.js`. -/
def setH : Settings := ⟨none, none, some "helpers.js"⟩

theorem lookupKey_register (t : PartialTable) (k c : String) :
    (t.register k c).lookupKey k = some c := by
  simp [PartialTable.register, PartialTable.lookupKey, List.lookup]

theorem getKey_eraseKey (c : DataCache) (k : String) :
    (DataCache.eraseKey c k).getKey k = none := by
  induction c with
  | nil => rfl
  | cons e rest ih =>
      unfold DataCache.eraseKey at ih ⊢
      by_cases h : e.1 = k
      · simpa [List.filter_cons, h] using ih
      · simp only [ne_eq, decide_not] at ih
        simp [List.filter_cons, h, DataCache.getKey, ih]

theorem getKey_save (c : DataCache) (ws n : String) (v : JSVal) :
    (saveTemplateData c ws n v).getKey (getTemplateDataKey ws n)
      = some v := by
  simp [saveTemplateData, DataCache.getKey]

theorem getTemplateData_save (c : DataCache) (ws n : String) (v : JSVal) :
    getTemplateData (saveTemplateData c ws n v) ws n = jsOr v emptyObj := by
  simp [getTemplateData, getKey_save]

theorem jsOr_of_truthy (x y : JSVal) (h : jsTruthy x = true) :
    jsOr x y = x := by
  simp [jsOr, h]

theorem jsTruthy_jsOr_emptyObj (a : JSVal) :
    jsTruthy (jsOr a emptyObj) = true := by
  unfold jsOr
  split
  · assumption
  · rfl

/-- C9: for every workspace and template name, clearTemplateData removes
the entry for the composite key workspaceRoot + ":" + name, and a
subsequent getTemplateData returns the empty object, as it does for any
name that was never stored. -/
theorem c9_clear_then_get (c : DataCache) (ws name : String) :
    (clearTemplateData c ws name).getKey (getTemplateDataKey ws name)
      = none
    ∧ getTemplateData (clearTemplateData c ws name) ws name = emptyObj
    ∧ (∀ c2 : DataCache,
        c2.getKey (getTemplateDataKey ws name) = none →
        getTemplateData c2 ws name = emptyObj) := by
  refine ⟨getKey_eraseKey c _, ?_, ?_⟩
  · simp [getTemplateData, clearTemplateData, getKey_eraseKey, jsOr,
      jsTruthy]
  · intro c2 h
    simp [getTemplateData, h, jsOr, jsTruthy]

/-- C9 witness: clearing the only entry makes the lookup empty and the
getter return the empty object, also for a never-stored cache. -/
theorem c9_witness :
    (clearTemplateData [(getTemplateDataKey "/ws" "x", JSVal.number 1)]
        "/ws" "x").getKey (getTemplateDataKey "/ws" "x") = none
    ∧ getTemplateData
        (clearTemplateData [(getTemplateDataKey "/ws" "x",
          JSVal.number 1)] "/ws" "x") "/ws" "x" = emptyObj
    ∧ getTemplateData ([] : DataCache) "/ws" "x" = emptyObj := by
  obtain ⟨h1, h2, h3⟩ :=
    c9_clear_then_get [(getTemplateDataKey "/ws" "x", JSVal.number 1)]
      "/ws" "x"
  exact ⟨h1, h2, h3 [] rfl⟩

/-- C10: getTemplateData returns the empty object not only when no entry
is stored but also whenever the stored value is falsy (null, false, 0 or
the empty string); only truthy stored values are returned as-is. -/
theorem c10_get_falsy (c : DataCache) (ws name : String) (v : JSVal)
    (h : c.getKey (getTemplateDataKey ws name) = some v) :
    (jsTruthy v = false → getTemplateData c ws name = emptyObj)
    ∧ (jsTruthy v = true → getTemplateData c ws name = v)
    ∧ jsTruthy JSVal.null = false
    ∧ jsTruthy (JSVal.boolean false) = false
    ∧ jsTruthy (JSVal.number 0) = false
    ∧ jsTruthy (JSVal.string "") = false := by
  refine ⟨?_, ?_, rfl, rfl, by decide, by decide⟩
  · intro hf
    simp [getTemplateData, h, jsOr, hf]
  · intro ht
    simp [getTemplateData, h, jsOr, ht]

/-- C10 witness: a stored falsy 0 reads back as the empty object, a
stored truthy object reads back as itself. -/
theorem c10_witness :
    getTemplateData [(getTemplateDataKey "/ws" "x", JSVal.number 0)]
      "/ws" "x" = emptyObj
    ∧ getTemplateData [(getTemplateDataKey "/ws" "y", JSVal.number 7)]
      "/ws" "y" = JSVal.number 7 := by
  refine ⟨?_, ?_⟩
  · exact (c10_get_falsy _ "/ws" "x" (JSVal.number 0) (by decide)).1
      (by decide)
  · exact (c10_get_falsy _ "/ws" "y" (JSVal.number 7)
      (by decide)).2.1 (by decide)

/-- C2: for every template name matching no scanned template record, a
renderTemplate request posts an error message naming the missing template
instead of rendered markup, and the template data cache (and the partial
table) are left completely unchanged. -/
theorem c2_missing_template (root : FSTree) (ws : String) (s : Settings)
    (engine : Engine) (tbl : PartialTable) (cache : DataCache)
    (name : String) (msgData : JSVal)
    (h : ∀ t ∈ getAvailableTemplates root ws s, t.name ≠ name) :
    handleRenderTemplate root ws s engine tbl cache name msgData
      = { tbl := tbl, cache := cache,
          events := [Event.post (Msg.errorMsg
            ("Template not found: " ++ name))] } := by
  have hf : (getAvailableTemplates root ws s).find?
      (fun t => t.name = name) = none := by
    rw [List.find?_eq_none]
    intro t ht
    simp [h t ht]
  simp [handleRenderTemplate, renderTemplate, hf]

/-- C2 witness: requesting the unknown name "missing" in a workspace
holding only template "x" posts a Template not found error and keeps the
cache empty. -/
theorem c2_witness :
    handleRenderTemplate root2 "/ws" set2 engine0 [] [] "missing"
        JSVal.undef
      = { tbl := [], cache := [],
          events := [Event.post (Msg.errorMsg
            "Template not found: missing")] } :=
  c2_missing_template root2 "/ws" set2 engine0 [] [] "missing"
    JSVal.undef (by decide)

/-- C3 (amended): a successful renderTemplate request stores the
submitted data when it is truthy — and the empty object otherwise —
before the caller is notified of the result (the save event precedes the
posted markup), and a subsequent getTemplateData returns exactly the
stored value, which equals the submitted data whenever that is truthy. -/
theorem c3_roundtrip_amended (root : FSTree) (ws : String) (s : Settings)
    (engine : Engine) (tbl tbl2 : PartialTable) (cache : DataCache)
    (name : String) (msgData : JSVal) (html : String)
    (h : renderTemplate root ws s engine tbl name (jsOr msgData emptyObj)
      = (.ok html, tbl2)) :
    handleRenderTemplate root ws s engine tbl cache name msgData
      = { tbl := tbl2
          cache := saveTemplateData cache ws name (jsOr msgData emptyObj)
          events := [Event.save (getTemplateDataKey ws name)
              (jsOr msgData emptyObj),
            Event.post (Msg.rendered html)] }
    ∧ getTemplateData (saveTemplateData cache ws name
        (jsOr msgData emptyObj)) ws name = jsOr msgData emptyObj
    ∧ (jsTruthy msgData = true → jsOr msgData emptyObj = msgData) := by
  refine ⟨?_, ?_, ?_⟩
  · simp [handleRenderTemplate, h]
  · rw [getTemplateData_save,
      jsOr_of_truthy _ _ (jsTruthy_jsOr_emptyObj msgData)]
  · intro ht
    exact jsOr_of_truthy _ _ ht

/-- C3 witness: rendering "x" with the truthy object containing a = 1
saves it before posting the markup and getTemplateData returns it
exactly. -/
theorem c3_witness :
    handleRenderTemplate root2 "/ws" set2 engine0 [] [] "x"
        (JSVal.object (.cons "a" (JSVal.number 1) .nil))
      = { tbl := [("x", "HELLO"), ("t/x", "HELLO")]
          cache := saveTemplateData [] "/ws" "x"
            (jsOr (JSVal.object (.cons "a" (JSVal.number 1) .nil))
              emptyObj)
          events := [Event.save (getTemplateDataKey "/ws" "x")
              (jsOr (JSVal.object (.cons "a" (JSVal.number 1) .nil))
                emptyObj),
            Event.post (Msg.rendered "HELLO")] }
    ∧ getTemplateData (saveTemplateData [] "/ws" "x"
        (jsOr (JSVal.object (.cons "a" (JSVal.number 1) .nil)) emptyObj))
        "/ws" "x"
      = jsOr (JSVal.object (.cons "a" (JSVal.number 1) .nil)) emptyObj
    ∧ (jsTruthy (JSVal.object (.cons "a" (JSVal.number 1) .nil)) = true →
        jsOr (JSVal.object (.cons "a" (JSVal.number 1) .nil)) emptyObj
          = JSVal.object (.cons "a" (JSVal.number 1) .nil)) :=
  c3_roundtrip_amended root2 "/ws" set2 engine0 [] [("x", "HELLO"),
    ("t/x", "HELLO")] [] "x"
    (JSVal.object (.cons "a" (JSVal.number 1) .nil)) "HELLO" (by decide)

/-- C3 counterexample: submitting the falsy JSON value 0 renders
successfully but the cache stores the empty object, so getTemplateData
does not return the submitted data. -/
theorem c3_counterexample :
    (handleRenderTemplate root2 "/ws" set2 engine0 [] [] "x"
        (JSVal.number 0)).events
      = [Event.save (getTemplateDataKey "/ws" "x") emptyObj,
         Event.post (Msg.rendered "HELLO")]
    ∧ getTemplateData (handleRenderTemplate root2 "/ws" set2 engine0 []
        [] "x" (JSVal.number 0)).cache "/ws" "x" = emptyObj
    ∧ emptyObj ≠ JSVal.number 0 := by
  refine ⟨by decide, by decide, by decide⟩

/-- C4: no scanned TemplateRecord whose name contains the substring
"components/" appears in the returned template list, for any filesystem,
workspace and settings; the filter does not apply to partial
registration, witnessed by a partial under a components subdirectory
that is registered while the template list stays empty. -/
theorem c4_components_filter :
    (∀ (root : FSTree) (ws : String) (s : Settings)
        (t : TemplateRecord), t ∈ getAvailableTemplates root ws s →
        containsSubstr t.name "components/" = false)
    ∧ (registerPartials root4 "/ws" set4 []).lookupKey
        "templates/components/x" = some "X"
    ∧ getAvailableTemplates root4 "/ws" set4 = [] := by
  refine ⟨?_, by decide, by decide⟩
  intro root ws s t ht
  unfold getAvailableTemplates templatesForDirs at ht
  have := (List.mem_filter.mp ht).2
  simpa using this

/-- C4 witness: the sole record of the single-template fixture passes the
filter, so its name does not contain "components/". -/
theorem c4_witness :
    containsSubstr
      (TemplateRecord.mk "x" "t" "/ws/t/x.hbs").name "components/"
      = false :=
  c4_components_filter.1 root2 "/ws" set2
    (TemplateRecord.mk "x" "t" "/ws/t/x.hbs") (by decide)

/-- C7 (amended): every installed watcher either carries the
template-directory profile — change: re-register partials, refresh the
list, exactly one re-render; create and delete: re-register partials and
refresh the list, no re-render — or the partials-only-directory profile,
whose three callbacks only re-register partials, with no list refresh
and no re-render; and every template directory gets a watcher with the
first profile. -/
theorem c7_watchers_amended :
    (∀ (root : FSTree) (ws : String) (s : Settings) (w : Watcher),
        w ∈ setupFileWatchers root ws s →
        (w.onChange = [.regPartials, .refreshList, .rerender]
          ∧ w.onCreate = [.regPartials, .refreshList]
          ∧ w.onDelete = [.regPartials, .refreshList]
          ∧ w.onChange.count .rerender = 1)
        ∨ (w.onChange = [.regPartials] ∧ w.onCreate = [.regPartials]
          ∧ w.onDelete = [.regPartials]
          ∧ WatchEffect.rerender ∉ w.onChange
          ∧ WatchEffect.refreshList ∉ w.onChange))
    ∧ (∀ (root : FSTree) (ws : String) (s : Settings) (d : String),
        d ∈ getTemplateDirectories root ws s →
        templateDirWatcher d ∈ setupFileWatchers root ws s) := by
  constructor
  · intro root ws s w hw
    unfold setupFileWatchers at hw
    rcases List.mem_append.mp hw with hl | hr
    · obtain ⟨d, _, rfl⟩ := List.mem_map.mp hl
      left
      exact ⟨rfl, rfl, rfl, by rfl⟩
    · obtain ⟨d, _, rfl⟩ := List.mem_map.mp hr
      right
      refine ⟨rfl, rfl, rfl, ?_, ?_⟩
      · simp [partialsDirWatcher]
      · simp [partialsDirWatcher]
  · intro root ws s d hd
    unfold setupFileWatchers
    exact List.mem_append.mpr (Or.inl (List.mem_map_of_mem _ hd))

/-- C7 witness: in the fixture with template directory t and partials
directory p, the watcher on /ws/t exists and carries the
template-directory profile. -/
theorem c7_witness :
    (templateDirWatcher "/ws/t" ∈ setupFileWatchers root7 "/ws" set7)
    ∧ ((templateDirWatcher "/ws/t").onChange
        = [.regPartials, .refreshList, .rerender]
      ∨ (templateDirWatcher "/ws/t").onChange = [.regPartials]) := by
  have h2 := c7_watchers_amended.2 root7 "/ws" set7 "/ws/t" (by decide)
  have h1 := c7_watchers_amended.1 root7 "/ws" set7
    (templateDirWatcher "/ws/t") h2
  refine ⟨h2, ?_⟩
  rcases h1 with ⟨hc, _⟩ | ⟨hc, _⟩
  · exact Or.inl hc
  · exact Or.inr hc

/-- C7 counterexample: with template directory t and a distinct partials
directory p, the installed watcher on /ws/p handles a change event
without refreshing the template list (contradicting the claim that the change
event of every watcher refreshes the list). -/
theorem c7_counterexample :
    setupFileWatchers root7 "/ws" set7
      = [templateDirWatcher "/ws/t", partialsDirWatcher "/ws/p"]
    ∧ WatchEffect.refreshList ∉ (partialsDirWatcher "/ws/p").onChange := by
  refine ⟨by decide, by decide⟩

/-- C8: the template scan is a pure function of the filesystem — scanning
the same directory set twice with unchanged filesystem state yields
identical record sets — and a configured directory whose resolved path
does not exist is silently dropped, leaving the scan result unchanged
rather than causing an error. -/
theorem c8_scan_deterministic :
    (∀ (root : FSTree) (ws : String) (s : Settings) (r : TemplateRecord),
        r ∈ getAvailableTemplates root ws s ↔
        r ∈ getAvailableTemplates root ws s)
    ∧ (∀ (root : FSTree) (ws : String) (pre post : List String)
        (d : String) (pd : Option (List String)) (ch : Option String),
        existsSyncFS root (resolveDir ws d) = false →
        getAvailableTemplates root ws ⟨some (pre ++ d :: post), pd, ch⟩
          = getAvailableTemplates root ws ⟨some (pre ++ post), pd, ch⟩) := by
  constructor
  · intro root ws s r
    exact Iff.rfl
  · intro root ws pre post d pd ch h
    unfold getAvailableTemplates
    congr 1
    unfold getTemplateDirectories getConfiguration
    simp [List.map_append, List.filter_append, List.filter_cons, h]

/-- C8 witness: adding the non-existent directory "nope" to the
configured list leaves the scan of the fixture workspace unchanged. -/
theorem c8_witness :
    existsSyncFS root2 (resolveDir "/ws" "nope") = false
    ∧ getAvailableTemplates root2 "/ws"
        ⟨some (["t"] ++ "nope" :: []), none, none⟩
      = getAvailableTemplates root2 "/ws"
        ⟨some (["t"] ++ []), none, none⟩ :=
  ⟨by decide, c8_scan_deterministic.2 root2 "/ws" ["t"] [] "nope" none
    none (by decide)⟩

mutual

theorem regRecursively_eq_foldl (ws dirPath : String) (t : FSTree)
    (tbl : PartialTable) :
    registerPartialsRecursively ws dirPath t tbl
      = (plannedPartialRegs ws dirPath t).foldl regStep tbl := by
  cases t with
  | file c =>
      simp [registerPartialsRecursively, plannedPartialRegs]
  | dir es =>
      simp only [registerPartialsRecursively, plannedPartialRegs]
      exact regEntries_eq_foldl ws dirPath es tbl

theorem regEntries_eq_foldl (ws dirPath : String) (es : FSEntries)
    (tbl : PartialTable) :
    registerPartialsEntries ws dirPath es tbl
      = (plannedPartialRegsEntries ws dirPath es).foldl regStep tbl := by
  cases es with
  | nil =>
      simp [registerPartialsEntries, plannedPartialRegsEntries]
  | cons file sub rest =>
      have ih1 := regEntries_eq_foldl ws dirPath rest
      cases sub with
      | dir es2 =>
          have ih2 := regRecursively_eq_foldl ws (dirPath ++ "/" ++ file)
            (FSTree.dir es2)
          simp [registerPartialsEntries, plannedPartialRegsEntries,
            List.foldl_append, ih1, ih2 tbl]
      | file content =>
          by_cases h : strEndsWith file ".hbs"
          · by_cases hne : replaceFirst file ".hbs" ""
                ≠ replaceFirst (replaceFirst (dirPath ++ "/" ++ file)
                    (ws ++ "/") "") ".hbs" ""
            · simp [registerPartialsEntries, plannedPartialRegsEntries,
                partialAliasSpec, h, hne, regStep, List.foldl_append,
                ih1]
            · simp [registerPartialsEntries, plannedPartialRegsEntries,
                partialAliasSpec, h, hne, regStep, List.foldl_append,
                ih1]
          · simp [registerPartialsEntries, plannedPartialRegsEntries,
              partialAliasSpec, h, List.foldl_append, ih1]

end

/-- C1 (amended): the partial walk registers, for every ".hbs" file found
by recursive descent and in traversal order, the full text of the file under
(a) the absolute path of the file with the first occurrence of the workspace
prefix deleted and the first ".hbs" occurrence deleted — the path
relative to the workspace root, not the partials root — and (b) the bare
filename with ".hbs" deleted, the second only when it differs from the
first (the `plannedPartialRegs` list); and a later registration of a key
overwrites any earlier one. -/
theorem c1_partials_amended :
    (∀ (ws dirPath : String) (t : FSTree) (tbl : PartialTable),
        registerPartialsRecursively ws dirPath t tbl
          = (plannedPartialRegs ws dirPath t).foldl regStep tbl)
    ∧ (∀ (tbl : PartialTable) (k c : String),
        (tbl.register k c).lookupKey k = some c) := by
  constructor
  · intro ws dirPath t tbl
    exact regRecursively_eq_foldl ws dirPath t tbl
  · intro tbl k c
    simp [PartialTable.register, PartialTable.lookupKey]

/-- C1 counterexample: with partials root /ws/p holding a/b/c.hbs, the
partial is not retrievable under "a/b/c" (the path relative to the
partials root); it is registered under "p/a/b/c" (the path relative to
the workspace root) and under the bare name "c". -/
theorem c1_counterexample :
    (registerPartials cRoot1 "/ws" cSet1 []).lookupKey "a/b/c" = none
    ∧ (registerPartials cRoot1 "/ws" cSet1 []).lookupKey "p/a/b/c"
      = some "X"
    ∧ (registerPartials cRoot1 "/ws" cSet1 []).lookupKey "c"
      = some "X" := by
  refine ⟨by decide, by decide, by decide⟩

theorem lookupField_setField : ∀ (fs : JSFields) (k : String) (v : JSVal),
    (fs.setField k v).lookupField k = some v
  | .nil, k, v => by
      simp [JSFields.setField, JSFields.lookupField]
  | .cons k0 v0 rest, k, v => by
      by_cases h : k0 = k
      · simp [JSFields.setField, JSFields.lookupField, h]
      · simp [JSFields.setField, JSFields.lookupField, h,
          lookupField_setField rest k v]

/-- C5 (amended): the adapter call fails with a TypeError when no final
options argument is present (instead of proceeding); when the final
argument is an object whose data property is absent, falsy or an object,
the adapter succeeds, invoking the original helper with the same this
binding and the same positional arguments, the final one now carrying
the engine back-reference under data.hbs. -/
theorem c5_adapter_amended :
    (∀ thisV : JSVal, adapterInvoke thisV []
      = .error "TypeError: cannot read data of undefined")
    ∧ (∀ (thisV : JSVal) (args : List JSVal) (fs : JSFields),
        args.getLast? = some (JSVal.object fs) →
        dataSettable fs = true →
        adapterInvoke thisV args
          = .ok (HelperCall.mk thisV
              (args.dropLast ++ [JSVal.object (injectedOptions fs)]))
          ∧ engineInjected (JSVal.object (injectedOptions fs)) = true
          ∧ (args.dropLast ++ [JSVal.object (injectedOptions fs)]).length
            = args.length) := by
  constructor
  · intro thisV
    rfl
  · intro thisV args fs hlast hset
    have hne : args ≠ [] := by
      intro hcon
      rw [hcon] at hlast
      cases hlast
    have hlen : (args.dropLast
        ++ [JSVal.object (injectedOptions fs)]).length = args.length := by
      have hpos : 0 < args.length := List.length_pos.mpr hne
      simp [List.length_dropLast]
      omega
    have h2 : jsTruthy ((fs.lookupField "data").getD JSVal.undef) = false
        ∨ ∃ dfs, fs.lookupField "data" = some (JSVal.object dfs) := by
      unfold dataSettable at hset
      rcases hd : fs.lookupField "data" with _ | d
      · left
        simp [jsTruthy]
      · rw [hd] at hset
        rcases d with _ | _ | b | n | s | _ | i | dfs
        · left
          simp [jsTruthy]
        · left
          simp [jsTruthy]
        · left
          simpa [jsTruthy] using hset
        · left
          simpa [jsTruthy] using hset
        · left
          simpa [jsTruthy] using hset
        · exact absurd hset (by simp [jsTruthy])
        · exact absurd hset (by simp [jsTruthy])
        · exact Or.inr ⟨dfs, rfl⟩
    refine ⟨?_, ?_, hlen⟩
    · unfold adapterInvoke
      rw [hlast]
      rcases h2 with hf | ⟨dfs, hd⟩
      · simp [jsGetField, jsSetField, hf, injectedOptions,
          lookupField_setField, emptyObj, JSFields.setField,
          Except.instMonad, Except.bind, Except.pure]
      · simp [jsGetField, jsSetField, hd, jsTruthy, injectedOptions,
          lookupField_setField, emptyObj, JSFields.setField,
          Except.instMonad, Except.bind, Except.pure]
    · rcases h2 with hf | ⟨dfs, hd⟩
      · simp [engineInjected, injectedOptions, hf, lookupField_setField,
          emptyObj, JSFields.setField, JSFields.lookupField]
      · simp [engineInjected, injectedOptions, hd, jsTruthy,
          lookupField_setField, emptyObj, JSFields.setField,
          JSFields.lookupField]

/-- C5 witness: calling the adapter with this bound to "T" and arguments
["n", an empty options object] invokes the helper with the same this and
arguments, the options object now carrying the engine at data.hbs. -/
theorem c5_witness :
    adapterInvoke (JSVal.string "T")
        [JSVal.string "n", JSVal.object JSFields.nil]
      = .ok (HelperCall.mk (JSVal.string "T")
          ([JSVal.string "n", JSVal.object JSFields.nil].dropLast
            ++ [JSVal.object (injectedOptions JSFields.nil)]))
    ∧ engineInjected (JSVal.object (injectedOptions JSFields.nil)) = true
    ∧ ([JSVal.string "n", JSVal.object JSFields.nil].dropLast
        ++ [JSVal.object (injectedOptions JSFields.nil)]).length
      = [JSVal.string "n", JSVal.object JSFields.nil].length :=
  c5_adapter_amended.2 (JSVal.string "T")
    [JSVal.string "n", JSVal.object JSFields.nil] JSFields.nil
    (by decide) (by decide)

/-- C5 counterexample: calling the adapter with no arguments at all (no
final options argument) fails with a TypeError instead of proceeding,
because the adapter reads the data property of undefined. -/
theorem c5_counterexample :
    adapterInvoke JSVal.undef []
      = .error "TypeError: cannot read data of undefined" := by
  decide

/-- C6: the helper loader performs no action when no custom-helpers file
is configured; a configured but non-existent path logs a warning and
returns without error; a module whose export is not a non-null object
registers zero helpers and reports an error to the user; and a thrown
load failure is caught and surfaced as a user-visible error message, so
no load failure escapes. -/
theorem c6_loader_safety :
    (∀ (root : FSTree) (ws : String) (s : Settings) (imp : ImportFn),
        (getConfiguration s).customHelpersFile = "" →
        loadCustomHelpers root ws s imp
          = ⟨[], [], [], [], ["No custom helpers file configured"]⟩)
    ∧ (∀ (root : FSTree) (ws : String) (s : Settings) (imp : ImportFn),
        (getConfiguration s).customHelpersFile ≠ "" →
        existsSyncFS root (helpersPathOf ws (getConfiguration s))
          = false →
        loadCustomHelpers root ws s imp
          = ⟨[], [], [], [], ["Custom helpers file not found: "
              ++ helpersPathOf ws (getConfiguration s)]⟩)
    ∧ (∀ (root : FSTree) (ws : String) (s : Settings) (imp : ImportFn)
        (m d : JSVal),
        (getConfiguration s).customHelpersFile ≠ "" →
        existsSyncFS root (helpersPathOf ws (getConfiguration s))
          = true →
        imp (helpersPathOf ws (getConfiguration s)) = .ok m →
        jsGetField m "default" = .ok d →
        ¬(typeofIsObject (jsOr d m) = true ∧ jsOr d m ≠ JSVal.null) →
        loadCustomHelpers root ws s imp
          = ⟨[], [], [],
              ["Handlebars Live Preview: Custom helpers file "
                ++ "should export an object with helper functions"],
              ["Custom helpers file should export an object with "
                ++ "helper functions: "
                ++ helpersPathOf ws (getConfiguration s)]⟩)
    ∧ (∀ (root : FSTree) (ws : String) (s : Settings) (imp : ImportFn)
        (e : String),
        (getConfiguration s).customHelpersFile ≠ "" →
        existsSyncFS root (helpersPathOf ws (getConfiguration s))
          = true →
        imp (helpersPathOf ws (getConfiguration s)) = .error e →
        loadCustomHelpers root ws s imp
          = ⟨[], [], [],
              ["Handlebars Live Preview: Failed to load custom "
                ++ "helpers: " ++ e],
              ["Error loading custom helpers: " ++ e]⟩) := by
  refine ⟨?_, ?_, ?_, ?_⟩
  · intro root ws s imp h
    simp [loadCustomHelpers, h]
  · intro root ws s imp h hex
    simp [loadCustomHelpers, h, loadCustomHelpersBody, hex,
      Except.instMonad, Except.bind, Except.pure]
  · intro root ws s imp m d h hex him hdflt hobj
    rw [loadCustomHelpers]
    simp only [h, if_false]
    rw [loadCustomHelpersBody]
    simp [hex, him, hdflt, hobj, Except.instMonad, Except.bind,
      Except.pure]
  · intro root ws s imp e h hex him
    simp [loadCustomHelpers, h, loadCustomHelpersBody, hex, him,
      Except.instMonad, Except.bind, Except.pure]

/-- C6 witness: the four loader branches at concrete inputs — no file
configured, configured file missing on disk, module exporting the
non-object 3, and an import that throws "boom". -/
theorem c6_witness :
    loadCustomHelpers root3 "/ws" ⟨none, none, none⟩
        (fun _ => .ok JSVal.undef)
      = ⟨[], [], [], [], ["No custom helpers file configured"]⟩
    ∧ loadCustomHelpers (FSTree.dir .nil) "/ws" setH
        (fun _ => .ok JSVal.undef)
      = ⟨[], [], [], [], ["Custom helpers file not found: "
          ++ helpersPathOf "/ws" (getConfiguration setH)]⟩
    ∧ loadCustomHelpers root3 "/ws" setH
        (fun _ => .ok (JSVal.number 3))
      = ⟨[], [], [],
          ["Handlebars Live Preview: Custom helpers file "
            ++ "should export an object with helper functions"],
          ["Custom helpers file should export an object with "
            ++ "helper functions: "
            ++ helpersPathOf "/ws" (getConfiguration setH)]⟩
    ∧ loadCustomHelpers root3 "/ws" setH (fun _ => .error "boom")
      = ⟨[], [], [],
          ["Handlebars Live Preview: Failed to load custom "
            ++ "helpers: boom"],
          ["Error loading custom helpers: boom"]⟩ := by
  refine ⟨?_, ?_, ?_, ?_⟩
  · exact c6_loader_safety.1 root3 "/ws" ⟨none, none, none⟩
      (fun _ => .ok JSVal.undef) (by decide)
  · exact c6_loader_safety.2.1 (FSTree.dir .nil) "/ws" setH
      (fun _ => .ok JSVal.undef) (by decide) (by decide)
  · exact c6_loader_safety.2.2.1 root3 "/ws" setH
      (fun _ => .ok (JSVal.number 3)) (JSVal.number 3) JSVal.undef
      (by decide) (by decide) rfl (by decide) (by decide)
  · exact c6_loader_safety.2.2.2 root3 "/ws" setH
      (fun _ => .error "boom") "boom" (by decide) (by decide) rfl
